import Mathlib

/-!
Shallow embedding of the epoch lifecycle and message admission layer of
`src/consensus/src/chained_bft/epoch_manager.rs`.

The `EpochManager` state is its `epoch_info` (epoch number plus validator
verifier identity); all collaborators (signature verification, the state
computer, persistent storage, the network sender, safety rules) are modelled
as oracles gathered in a `World` record.  Each embedded operation returns its
result, the updated manager state, and the list of observable side effects
(network sends, log lines, security-audit records), mirroring the control
flow of the Rust source line by line.
-/

/-- Account addresses are abstracted to naturals. -/
abbrev AccountAddress := Nat

/-- Validator verifiers are abstract identities; how a verifier judges a
message is supplied by the `World` oracles. -/
abbrev VerifierId := Nat

/-- Mirrors `EpochInfo { epoch, verifier }`. -/
structure EpochInfo where
  epoch : Nat
  verifier : VerifierId
deriving DecidableEq

/-- The mutable state of the `EpochManager`: its `epoch_info` field.  The
collaborator handles are immutable from the manager and live in `World`. -/
structure EpochManager where
  epoch_info : EpochInfo
deriving DecidableEq

/-- Mirrors `EpochManager::epoch`. -/
def EpochManager.epoch (s : EpochManager) : Nat :=
  s.epoch_info.epoch

/-- Mirrors `ProposalMsg`: epoch, optional author of the proposed block,
abstract payload. -/
structure ProposalMsg where
  epoch : Nat
  author : Option AccountAddress
  payload : Nat
deriving DecidableEq

/-- Mirrors `VoteMsg`: epoch plus abstract payload. -/
structure VoteMsg where
  epoch : Nat
  payload : Nat
deriving DecidableEq

/-- Mirrors `SyncInfo`: epoch plus abstract payload. -/
structure SyncInfo where
  epoch : Nat
  payload : Nat
deriving DecidableEq

/-- Mirrors `EpochRetrievalRequest { start_epoch, end_epoch }`. -/
structure EpochRetrievalRequest where
  start_epoch : Nat
  end_epoch : Nat
deriving DecidableEq

/-- An epoch-change proof, abstracted to a payload; its epoch and its
verification outcome are supplied by `World` oracles. -/
structure EpochChangeProof where
  payload : Nat
deriving DecidableEq

/-- Mirrors `LedgerInfoWithSignatures` as far as this layer reads it: the
epoch of its inner ledger info plus an abstract payload. -/
structure LedgerInfoWithSignatures where
  epoch : Nat
  payload : Nat
deriving DecidableEq

/-- Mirrors `RecoveryData` as consumed here: committed epoch, validator set,
validator keys and the optional last vote. -/
structure RecoveryData where
  epoch : Nat
  validators : VerifierId
  validator_keys : Nat
  last_vote : Option Nat
deriving DecidableEq

/-- Mirrors `FromNetworkMsg`. -/
inductive FromNetworkMsg where
  | proposal (p : ProposalMsg)
  | requestBlock (req : Nat)
  | vote (v : VoteMsg)
  | sync (si : SyncInfo)
  | epochChange (pr : EpochChangeProof)
  | requestEpoch (req : EpochRetrievalRequest)
deriving DecidableEq

/-- Mirrors `EpochMsg`: a message admitted for the current epoch. -/
inductive EpochMsg where
  | proposal (p : ProposalMsg)
  | requestBlock (req : Nat)
  | vote (v : VoteMsg)
  | sync (si : SyncInfo)
deriving DecidableEq

/-- The per-epoch `EventProcessor`, recorded by the components it was built
from: the installed epoch, the validator set, and the recovered last vote. -/
structure EventProcessor where
  epoch : Nat
  validators : VerifierId
  last_vote : Option Nat
deriving DecidableEq

/-- Mirrors `EpochCheck`. -/
inductive EpochCheck where
  | current (m : EpochMsg)
  | notCurrent
  | newStart (ep : EventProcessor)
deriving DecidableEq

/-- The classification errors `check_epoch` can surface, tagged by which
check failed; the `Nat` carries the collaborator error value. -/
inductive VerifyError where
  | sig (e : Nat)
  | wellFormed (e : Nat)
  | authorMismatch
  | vote (e : Nat)
  | proof (e : Nat)
deriving DecidableEq

/-- The outcome of `check_epoch`: an `anyhow::Result<EpochCheck>` plus the
`fatal` case for the `expect` panics inside `start_epoch`. -/
inductive CheckResult where
  | ok (r : EpochCheck)
  | err (e : VerifyError)
  | fatal
deriving DecidableEq

/-- Outbound `ConsensusMsg` variants this layer can send. -/
inductive ConsensusMsgOut where
  | epochChange (pr : EpochChangeProof)
  | requestEpoch (req : EpochRetrievalRequest)
deriving DecidableEq

/-- Observable side effects of the embedded operations. -/
inductive Effect where
  | sentTo (peer : AccountAddress) (m : ConsensusMsgOut)
  | warnSendFailed (peer : AccountAddress)
  | warnGetProofFailed
  | warnSerializeFailed
  | warnSameEpoch
  | warnBeyondLocalHorizon
  | errorSyncFailed (li : LedgerInfoWithSignatures)
  | storageStarted
  | updatedEligibleNodes (keys : Nat)
  | securityAudit (e : Nat) (v : VoteMsg)
deriving DecidableEq

/-- The environment: every collaborator consulted by the epoch manager,
modelled as pure oracles. -/
structure World where
  sigVerify : VerifierId → ProposalMsg → Except Nat Unit
  wellFormed : ProposalMsg → Except Nat Unit
  voteVerify : VerifierId → VoteMsg → Except Nat Unit
  proofEpoch : EpochChangeProof → Option Nat
  proofVerify : EpochInfo → EpochChangeProof → Except Nat LedgerInfoWithSignatures
  syncOk : LedgerInfoWithSignatures → Bool
  storageStart : RecoveryData
  getEpochProof : Nat → Nat → Except Nat EpochChangeProof
  serializeOk : EpochRetrievalRequest → Bool
  sendOk : AccountAddress → Bool
  eligibleOk : Bool
  safetyOk : Bool

/-- Mirrors `network_sender.send_to(peer_id, msg)` with the `warn!` on
failure: the send effect is recorded when the network delivers it. -/
def sendToPeer (w : World) (peer_id : AccountAddress) (m : ConsensusMsgOut) :
    List Effect :=
  if w.sendOk peer_id then [Effect.sentTo peer_id m]
  else [Effect.warnSendFailed peer_id]

/-- Mirrors `EpochManager::process_epoch_retrieval`. -/
def process_epoch_retrieval (w : World) (s : EpochManager)
    (request : EpochRetrievalRequest) (peer_id : AccountAddress) :
    EpochManager × List Effect :=
  match w.getEpochProof request.start_epoch request.end_epoch with
  | Except.error _ => (s, [Effect.warnGetProofFailed])
  | Except.ok pr => (s, sendToPeer w peer_id (ConsensusMsgOut.epochChange pr))

/-- Mirrors `EpochManager::process_different_epoch`. -/
def process_different_epoch (w : World) (s : EpochManager)
    (different_epoch : Nat) (peer_id : AccountAddress) :
    EpochManager × List Effect :=
  if different_epoch < s.epoch then
    process_epoch_retrieval w s
      { start_epoch := different_epoch, end_epoch := s.epoch } peer_id
  else if s.epoch < different_epoch then
    if w.serializeOk { start_epoch := s.epoch, end_epoch := different_epoch } then
      (s, sendToPeer w peer_id (ConsensusMsgOut.requestEpoch
        { start_epoch := s.epoch, end_epoch := different_epoch }))
    else (s, [Effect.warnSerializeFailed])
  else (s, [Effect.warnSameEpoch])

/-- Mirrors `EpochManager::check_for_non_current_epoch`: `none` means the
message was handled or dropped at this layer. -/
def check_for_non_current_epoch (w : World) (s : EpochManager)
    (peer_id : AccountAddress) (msg : FromNetworkMsg) :
    Option FromNetworkMsg × EpochManager × List Effect :=
  match msg with
  | FromNetworkMsg.proposal p =>
      if p.epoch ≠ s.epoch_info.epoch then (none, s, [])
      else (some (FromNetworkMsg.proposal p), s, [])
  | FromNetworkMsg.requestBlock req =>
      (some (FromNetworkMsg.requestBlock req), s, [])
  | FromNetworkMsg.vote v =>
      if v.epoch ≠ s.epoch_info.epoch then
        let r := process_different_epoch w s v.epoch peer_id
        (none, r.1, r.2)
      else (some (FromNetworkMsg.vote v), s, [])
  | FromNetworkMsg.sync si =>
      if si.epoch = s.epoch then (some (FromNetworkMsg.sync si), s, [])
      else
        let r := process_different_epoch w s si.epoch peer_id
        (none, r.1, r.2)
  | FromNetworkMsg.epochChange pr =>
      match w.proofEpoch pr with
      | none => (none, s, [])
      | some msg_epoch =>
          if msg_epoch = s.epoch then
            (some (FromNetworkMsg.epochChange pr), s, [])
          else
            let r := process_different_epoch w s msg_epoch peer_id
            (none, r.1, r.2)
  | FromNetworkMsg.requestEpoch request =>
      if request.end_epoch ≤ s.epoch then
        (some (FromNetworkMsg.requestEpoch request), s, [])
      else (none, s, [Effect.warnBeyondLocalHorizon])

/-- Mirrors `EpochManager::start_epoch`: pushes the committee to the network
sender, transitions safety rules, and composes the event processor; the two
`expect` calls become the `none` (fatal) outcome. -/
def start_epoch (w : World) (s : EpochManager) (initial_data : RecoveryData) :
    Option EventProcessor × List Effect :=
  let eff := [Effect.updatedEligibleNodes initial_data.validator_keys]
  if w.eligibleOk = false then (none, eff)
  else if w.safetyOk = false then (none, eff)
  else (some { epoch := s.epoch, validators := initial_data.validators,
               last_vote := initial_data.last_vote }, eff)

/-- Mirrors `EpochManager::start_new_epoch`: best-effort sync, reload
recovery data from storage, install the new `EpochInfo`, build the
per-epoch event processor. -/
def start_new_epoch (w : World) (s : EpochManager)
    (ledger_info : LedgerInfoWithSignatures) :
    Option EventProcessor × EpochManager × List Effect :=
  let syncEff := if w.syncOk ledger_info then []
                 else [Effect.errorSyncFailed ledger_info]
  let initial_data := w.storageStart
  let s1 : EpochManager :=
    { epoch_info := { epoch := initial_data.epoch,
                      verifier := initial_data.validators } }
  let r := start_epoch w s1 initial_data
  (r.1, s1, syncEff ++ Effect.storageStarted :: r.2)

/-- Mirrors `EpochManager::check_epoch`. -/
def check_epoch (w : World) (s : EpochManager) (peer_id : AccountAddress)
    (msg : FromNetworkMsg) : CheckResult × EpochManager × List Effect :=
  match check_for_non_current_epoch w s peer_id msg with
  | (none, s1, eff) => (CheckResult.ok EpochCheck.notCurrent, s1, eff)
  | (some m, s1, eff) =>
    match m with
    | FromNetworkMsg.proposal p =>
        match w.sigVerify s1.epoch_info.verifier p with
        | Except.error e => (CheckResult.err (VerifyError.sig e), s1, eff)
        | Except.ok _ =>
          match w.wellFormed p with
          | Except.error e =>
              (CheckResult.err (VerifyError.wellFormed e), s1, eff)
          | Except.ok _ =>
            if p.author = some peer_id then
              (CheckResult.ok (EpochCheck.current (EpochMsg.proposal p)), s1, eff)
            else (CheckResult.err VerifyError.authorMismatch, s1, eff)
    | FromNetworkMsg.requestBlock req =>
        (CheckResult.ok (EpochCheck.current (EpochMsg.requestBlock req)), s1, eff)
    | FromNetworkMsg.vote v =>
        match w.voteVerify s1.epoch_info.verifier v with
        | Except.error e =>
            (CheckResult.err (VerifyError.vote e), s1,
              eff ++ [Effect.securityAudit e v])
        | Except.ok _ =>
            (CheckResult.ok (EpochCheck.current (EpochMsg.vote v)), s1, eff)
    | FromNetworkMsg.sync si =>
        (CheckResult.ok (EpochCheck.current (EpochMsg.sync si)), s1, eff)
    | FromNetworkMsg.epochChange pr =>
        match w.proofVerify s1.epoch_info pr with
        | Except.error e => (CheckResult.err (VerifyError.proof e), s1, eff)
        | Except.ok target_ledger_info =>
          if s1.epoch ≤ target_ledger_info.epoch then
            let r := start_new_epoch w s1 target_ledger_info
            match r.1 with
            | some event_processor =>
                (CheckResult.ok (EpochCheck.newStart event_processor),
                  r.2.1, eff ++ r.2.2)
            | none => (CheckResult.fatal, r.2.1, eff ++ r.2.2)
          else (CheckResult.ok EpochCheck.notCurrent, s1, eff)
    | FromNetworkMsg.requestEpoch request =>
        let r := process_epoch_retrieval w s1 request peer_id
        (CheckResult.ok EpochCheck.notCurrent, r.1, eff ++ r.2)

/-- The network messages actually delivered among a list of effects. -/
def sentMsgs (effs : List Effect) : List (AccountAddress × ConsensusMsgOut) :=
  effs.filterMap fun e =>
    match e with
    | Effect.sentTo peer m => some (peer, m)
    | _ => none

/-- True exactly on `CheckResult.err`. -/
def CheckResult.isErr : CheckResult → Bool
  | CheckResult.err _ => true
  | _ => false

/-- True exactly on `CheckResult.ok (EpochCheck.newStart _)`. -/
def CheckResult.isNewStart : CheckResult → Bool
  | CheckResult.ok (EpochCheck.newStart _) => true
  | _ => false

/-- The epoch carried by an admitted message; `RequestBlock` carries none. -/
def EpochMsg.msgEpoch : EpochMsg → Option Nat
  | EpochMsg.proposal p => some p.epoch
  | EpochMsg.vote v => some v.epoch
  | EpochMsg.sync si => some si.epoch
  | EpochMsg.requestBlock _ => none


/-- Helper: a default world in which every collaborator succeeds, storage
recovers epoch 6 with validator set 6. -/
def wDef : World :=
  { sigVerify := fun _ _ => Except.ok ()
  , wellFormed := fun _ => Except.ok ()
  , voteVerify := fun _ _ => Except.ok ()
  , proofEpoch := fun _ => some 5
  , proofVerify := fun _ _ => Except.ok { epoch := 5, payload := 0 }
  , syncOk := fun _ => true
  , storageStart := { epoch := 6, validators := 6, validator_keys := 60, last_vote := none }
  , getEpochProof := fun a b => Except.ok { payload := a + 100 * b }
  , serializeOk := fun _ => true
  , sendOk := fun _ => true
  , eligibleOk := true
  , safetyOk := true }

/-- Helper: the manager at epoch 5 with verifier 5. -/
def s5 : EpochManager := { epoch_info := { epoch := 5, verifier := 5 } }

/-! ### Helper lemmas -/

/-- Helper: `process_epoch_retrieval` never touches the manager state. -/
theorem process_epoch_retrieval_fst (w : World) (s : EpochManager)
    (request : EpochRetrievalRequest) (peer_id : AccountAddress) :
    (process_epoch_retrieval w s request peer_id).1 = s := by
  unfold process_epoch_retrieval
  cases w.getEpochProof request.start_epoch request.end_epoch <;> rfl

/-- Helper: `process_different_epoch` never touches the manager state. -/
theorem process_different_epoch_fst (w : World) (s : EpochManager)
    (different_epoch : Nat) (peer_id : AccountAddress) :
    (process_different_epoch w s different_epoch peer_id).1 = s := by
  unfold process_different_epoch
  split
  · exact process_epoch_retrieval_fst ..
  · split
    · split <;> rfl
    · rfl

/-- Helper: `check_for_non_current_epoch` never touches the manager state. -/
theorem check_for_non_current_epoch_fst (w : World) (s : EpochManager)
    (peer_id : AccountAddress) (msg : FromNetworkMsg) :
    (check_for_non_current_epoch w s peer_id msg).2.1 = s := by
  cases msg with
  | proposal p =>
      by_cases h : p.epoch = s.epoch_info.epoch <;>
        simp [check_for_non_current_epoch, h]
  | requestBlock req => rfl
  | vote v =>
      by_cases h : v.epoch = s.epoch_info.epoch <;>
        simp [check_for_non_current_epoch, h, process_different_epoch_fst]
  | sync si =>
      by_cases h : si.epoch = s.epoch_info.epoch <;>
        simp [check_for_non_current_epoch, h, process_different_epoch_fst,
          EpochManager.epoch]
  | epochChange pr =>
      rcases hpe : w.proofEpoch pr with _ | e
      · simp [check_for_non_current_epoch, hpe]
      · by_cases h : e = s.epoch_info.epoch <;>
          simp [check_for_non_current_epoch, hpe, h,
            process_different_epoch_fst, EpochManager.epoch]
  | requestEpoch request =>
      by_cases h : request.end_epoch ≤ s.epoch_info.epoch <;>
        simp [check_for_non_current_epoch, h, EpochManager.epoch]

/-! ### Claim theorems -/

/-- C8: a Proposal whose epoch differs from the local epoch is never
forwarded and never triggers cross-epoch help: `check_epoch` returns
`NotCurrent`, leaves the state unchanged, and produces no effect at all
(in particular no network send and no `process_different_epoch` help). -/
theorem proposal_cross_epoch_dropped_silently (w : World) (s : EpochManager)
    (peer_id : AccountAddress) (p : ProposalMsg)
    (h : p.epoch ≠ s.epoch_info.epoch) :
    check_epoch w s peer_id (FromNetworkMsg.proposal p) =
      (CheckResult.ok EpochCheck.notCurrent, s, []) := by
  simp [check_epoch, check_for_non_current_epoch, h]

/-- C8 witness: local epoch 5, proposal at epoch 4 is dropped silently. -/
theorem proposal_cross_epoch_dropped_silently_witness :
    check_epoch wDef s5 1
        (FromNetworkMsg.proposal { epoch := 4, author := some 1, payload := 0 }) =
      (CheckResult.ok EpochCheck.notCurrent, s5, []) :=
  proposal_cross_epoch_dropped_silently wDef s5 1
    { epoch := 4, author := some 1, payload := 0 } (by decide)

/-- C2: a Proposal is admitted as Current exactly when it is for the local
epoch, its signatures verify under the current verifier, it is well formed,
and its author equals the sending peer; and any signature, well-formedness,
or authorship failure on a same-epoch proposal makes `check_epoch` return an
error (so the proposal is not forwarded). -/
theorem proposal_admission_sound (w : World) (s : EpochManager)
    (peer_id : AccountAddress) (p : ProposalMsg) :
    ((check_epoch w s peer_id (FromNetworkMsg.proposal p)).1 =
        CheckResult.ok (EpochCheck.current (EpochMsg.proposal p)) ↔
      p.epoch = s.epoch_info.epoch ∧
        w.sigVerify s.epoch_info.verifier p = Except.ok () ∧
        w.wellFormed p = Except.ok () ∧ p.author = some peer_id) ∧
    (p.epoch = s.epoch_info.epoch →
      ¬(w.sigVerify s.epoch_info.verifier p = Except.ok () ∧
          w.wellFormed p = Except.ok () ∧ p.author = some peer_id) →
      (check_epoch w s peer_id (FromNetworkMsg.proposal p)).1.isErr = true) := by
  by_cases hep : p.epoch = s.epoch_info.epoch
  · rcases hsig : w.sigVerify s.epoch_info.verifier p with e | u
    · simp [check_epoch, check_for_non_current_epoch, hep, hsig, CheckResult.isErr]
    · rcases hwf : w.wellFormed p with e | u'
      · simp [check_epoch, check_for_non_current_epoch, hep, hsig, hwf,
          CheckResult.isErr]
      · by_cases hau : p.author = some peer_id <;>
          simp [check_epoch, check_for_non_current_epoch, hep, hsig, hwf, hau,
            CheckResult.isErr]
  · simp [check_epoch, check_for_non_current_epoch, hep]

/-- C2 witness: at the local epoch with all checks passing except authorship,
`check_epoch` surfaces an error. -/
theorem proposal_admission_sound_witness :
    (check_epoch wDef s5 1
        (FromNetworkMsg.proposal { epoch := 5, author := some 2, payload := 0 })).1.isErr
      = true :=
  (proposal_admission_sound wDef s5 1
      { epoch := 5, author := some 2, payload := 0 }).2 (by decide) (by simp [wDef])

/-- C4: for a same-epoch Vote, a verification failure with error `e` makes
`check_epoch` return that verification error and emit exactly one
security-audit record carrying `e` and the offending vote, forwarding
nothing and changing nothing else; a Vote that verifies is admitted as
Current. -/
theorem vote_admission_and_audit (w : World) (s : EpochManager)
    (peer_id : AccountAddress) (v : VoteMsg)
    (heq : v.epoch = s.epoch_info.epoch) :
    (∀ e, w.voteVerify s.epoch_info.verifier v = Except.error e →
        check_epoch w s peer_id (FromNetworkMsg.vote v) =
          (CheckResult.err (VerifyError.vote e), s,
            [Effect.securityAudit e v])) ∧
    (w.voteVerify s.epoch_info.verifier v = Except.ok () →
        check_epoch w s peer_id (FromNetworkMsg.vote v) =
          (CheckResult.ok (EpochCheck.current (EpochMsg.vote v)), s, [])) := by
  constructor
  · intro e he
    simp [check_epoch, check_for_non_current_epoch, heq, he]
  · intro hok
    simp [check_epoch, check_for_non_current_epoch, heq, hok]

/-- C4 witness: a same-epoch vote rejected by the verifier with error 7
yields exactly one security-audit record carrying the error and the vote. -/
theorem vote_admission_and_audit_witness :
    check_epoch
        { wDef with voteVerify := fun _ _ => Except.error 7 } s5 1
        (FromNetworkMsg.vote { epoch := 5, payload := 3 }) =
      (CheckResult.err (VerifyError.vote 7), s5,
        [Effect.securityAudit 7 { epoch := 5, payload := 3 }]) :=
  (vote_admission_and_audit
      { wDef with voteVerify := fun _ _ => Except.error 7 } s5 1
      { epoch := 5, payload := 3 } (by decide)).1 7 rfl

/-- C6: when `state_computer.sync_to` fails during `start_new_epoch`, the
error is logged and the transition continues anyway: `storage.start` is still
consulted, a fully constructed event processor is still produced (the payload
of the `NewStart` returned by `check_epoch`), and the local epoch afterwards
equals the epoch reported by the recovered data. -/
theorem sync_failure_still_transitions (w : World) (s : EpochManager)
    (ledger_info : LedgerInfoWithSignatures)
    (hsync : w.syncOk ledger_info = false)
    (helig : w.eligibleOk = true) (hsafe : w.safetyOk = true) :
    start_new_epoch w s ledger_info =
      (some { epoch := w.storageStart.epoch,
              validators := w.storageStart.validators,
              last_vote := w.storageStart.last_vote },
       { epoch_info := { epoch := w.storageStart.epoch,
                         verifier := w.storageStart.validators } },
       [Effect.errorSyncFailed ledger_info, Effect.storageStarted,
        Effect.updatedEligibleNodes w.storageStart.validator_keys]) := by
  simp [start_new_epoch, start_epoch, hsync, helig, hsafe, EpochManager.epoch]

/-- C6 witness: sync to the target fails, yet storage recovery at epoch 6
still yields an event processor and local epoch 6. -/
theorem sync_failure_still_transitions_witness :
    start_new_epoch { wDef with syncOk := fun _ => false } s5
        { epoch := 5, payload := 0 } =
      (some { epoch := 6, validators := 6, last_vote := none },
       { epoch_info := { epoch := 6, verifier := 6 } },
       [Effect.errorSyncFailed { epoch := 5, payload := 0 },
        Effect.storageStarted, Effect.updatedEligibleNodes 60]) :=
  sync_failure_still_transitions { wDef with syncOk := fun _ => false } s5
    { epoch := 5, payload := 0 } rfl rfl rfl

/-- C7: an `EpochRetrievalRequest` with `end_epoch` at or below the local
epoch is serviced (`check_epoch` returns `NotCurrent` and, when the proof
fetch and the send succeed, exactly one `EpochChange` message goes to the
requester); with `end_epoch` above the local epoch a warning is logged and
the request is dropped with no reply and no state change. -/
theorem epoch_retrieval_serviced_or_dropped (w : World) (s : EpochManager)
    (peer_id : AccountAddress) (request : EpochRetrievalRequest) :
    (request.end_epoch ≤ s.epoch_info.epoch →
      (check_epoch w s peer_id (FromNetworkMsg.requestEpoch request)).1 =
          CheckResult.ok EpochCheck.notCurrent ∧
        (∀ pr, w.getEpochProof request.start_epoch request.end_epoch =
            Except.ok pr →
          w.sendOk peer_id = true →
          (check_epoch w s peer_id (FromNetworkMsg.requestEpoch request)).2.2 =
            [Effect.sentTo peer_id (ConsensusMsgOut.epochChange pr)])) ∧
    (s.epoch_info.epoch < request.end_epoch →
      check_epoch w s peer_id (FromNetworkMsg.requestEpoch request) =
        (CheckResult.ok EpochCheck.notCurrent, s,
          [Effect.warnBeyondLocalHorizon])) := by
  constructor
  · intro hle
    constructor
    · rcases hp : w.getEpochProof request.start_epoch request.end_epoch with e | pr <;>
        simp [check_epoch, check_for_non_current_epoch, process_epoch_retrieval,
          hle, hp, EpochManager.epoch]
    · intro pr hp hsend
      simp [check_epoch, check_for_non_current_epoch, process_epoch_retrieval,
        sendToPeer, hle, hp, hsend, EpochManager.epoch]
  · intro hgt
    simp [check_epoch, check_for_non_current_epoch, Nat.not_le.mpr hgt,
      EpochManager.epoch, Nat.not_le_of_lt hgt]

/-- C7 witness: a request for epochs up to the local epoch 5 is serviced
with exactly one `EpochChange` reply to the requester. -/
theorem epoch_retrieval_serviced_or_dropped_witness :
    (check_epoch wDef s5 1
        (FromNetworkMsg.requestEpoch { start_epoch := 4, end_epoch := 5 })).2.2 =
      [Effect.sentTo 1 (ConsensusMsgOut.epochChange { payload := 504 })] :=
  ((epoch_retrieval_serviced_or_dropped wDef s5 1
      { start_epoch := 4, end_epoch := 5 }).1 (by decide)).2
    { payload := 504 } rfl rfl

/-- C9: every message `check_epoch` returns as Current carries the local
epoch of the manager at the time of return; `RequestBlock` carries no epoch
(`msgEpoch` is `none`) and passes unconditionally. -/
theorem admitted_epoch_matches_local (w : World) (s : EpochManager)
    (peer_id : AccountAddress) (msg : FromNetworkMsg) (m : EpochMsg)
    (hcur : (check_epoch w s peer_id msg).1 =
      CheckResult.ok (EpochCheck.current m)) :
    (∀ e, m.msgEpoch = some e →
      e = (check_epoch w s peer_id msg).2.1.epoch_info.epoch) ∧
    (∀ req, (check_epoch w s peer_id (FromNetworkMsg.requestBlock req)).1 =
      CheckResult.ok (EpochCheck.current (EpochMsg.requestBlock req))) := by
  refine ⟨?_, fun req => by simp [check_epoch, check_for_non_current_epoch]⟩
  intro e he
  cases msg with
  | proposal p =>
      by_cases hep : p.epoch = s.epoch_info.epoch
      · rcases hsig : w.sigVerify s.epoch_info.verifier p with er | u
        · simp [check_epoch, check_for_non_current_epoch, hep, hsig] at hcur
        · rcases hwf : w.wellFormed p with er | u2
          · simp [check_epoch, check_for_non_current_epoch, hep, hsig, hwf]
              at hcur
          · by_cases hau : p.author = some peer_id
            · simp [check_epoch, check_for_non_current_epoch, hep, hsig, hwf,
                hau] at hcur ⊢
              subst hcur
              simp [EpochMsg.msgEpoch] at he
              omega
            · simp [check_epoch, check_for_non_current_epoch, hep, hsig, hwf,
                hau] at hcur
      · simp [check_epoch, check_for_non_current_epoch, hep] at hcur
  | requestBlock req =>
      simp [check_epoch, check_for_non_current_epoch] at hcur
      subst hcur
      simp [EpochMsg.msgEpoch] at he
  | vote v =>
      by_cases hep : v.epoch = s.epoch_info.epoch
      · rcases hvv : w.voteVerify s.epoch_info.verifier v with er | u
        · simp [check_epoch, check_for_non_current_epoch, hep, hvv] at hcur
        · simp [check_epoch, check_for_non_current_epoch, hep, hvv] at hcur ⊢
          subst hcur
          simp [EpochMsg.msgEpoch] at he
          omega
      · simp [check_epoch, check_for_non_current_epoch, hep] at hcur
  | sync si =>
      by_cases hep : si.epoch = s.epoch_info.epoch
      · simp [check_epoch, check_for_non_current_epoch, EpochManager.epoch,
          hep] at hcur ⊢
        subst hcur
        simp [EpochMsg.msgEpoch] at he
        omega
      · simp [check_epoch, check_for_non_current_epoch, EpochManager.epoch,
          hep] at hcur
  | epochChange pr =>
      rcases hpe : w.proofEpoch pr with _ | e0
      · simp [check_epoch, check_for_non_current_epoch, hpe] at hcur
      · by_cases h0 : e0 = s.epoch_info.epoch
        · rcases hver : w.proofVerify s.epoch_info pr with er | li
          · simp [check_epoch, check_for_non_current_epoch, EpochManager.epoch,
              hpe, h0, hver] at hcur
          · by_cases hle : s.epoch_info.epoch ≤ li.epoch
            · rcases hev : (start_new_epoch w s li).1 with _ | ep <;>
                simp [check_epoch, check_for_non_current_epoch,
                  EpochManager.epoch, hpe, h0, hver, hle, hev] at hcur
            · simp [check_epoch, check_for_non_current_epoch,
                EpochManager.epoch, hpe, h0, hver, hle] at hcur
        · simp [check_epoch, check_for_non_current_epoch, EpochManager.epoch,
            hpe, h0] at hcur
  | requestEpoch request =>
      by_cases hle : request.end_epoch ≤ s.epoch_info.epoch
      · rcases hp : w.getEpochProof request.start_epoch request.end_epoch
          with er | pr <;>
          simp [check_epoch, check_for_non_current_epoch, EpochManager.epoch,
            process_epoch_retrieval, hle, hp] at hcur
      · simp [check_epoch, check_for_non_current_epoch, EpochManager.epoch,
          hle] at hcur

/-- C9 witness: a same-epoch vote is admitted and its epoch equals the local
epoch at return. -/
theorem admitted_epoch_matches_local_witness :
    5 = (check_epoch wDef s5 1
        (FromNetworkMsg.vote { epoch := 5, payload := 0 })).2.1.epoch_info.epoch :=
  (admitted_epoch_matches_local wDef s5 1
      (FromNetworkMsg.vote { epoch := 5, payload := 0 })
      (EpochMsg.vote { epoch := 5, payload := 0 }) (by decide)).1 5 rfl

/-- C10: whenever `check_epoch` returns Current, NotCurrent, or an error
(anything other than a NewStart, the fatal panic path not being a return),
the manager state — `epoch_info`, both epoch and verifier — is unchanged;
only the NewStart path replaces it. -/
theorem check_epoch_state_frame (w : World) (s : EpochManager)
    (peer_id : AccountAddress) (msg : FromNetworkMsg)
    (hns : (check_epoch w s peer_id msg).1.isNewStart = false)
    (hft : (check_epoch w s peer_id msg).1 ≠ CheckResult.fatal) :
    (check_epoch w s peer_id msg).2.1 = s := by
  cases msg with
  | proposal p =>
      by_cases hep : p.epoch = s.epoch_info.epoch
      · rcases hsig : w.sigVerify s.epoch_info.verifier p with er | u <;>
          rcases hwf : w.wellFormed p with er2 | u2 <;>
          by_cases hau : p.author = some peer_id <;>
          simp [check_epoch, check_for_non_current_epoch, hep, hsig, hwf, hau]
      · simp [check_epoch, check_for_non_current_epoch, hep]
  | requestBlock req => simp [check_epoch, check_for_non_current_epoch]
  | vote v =>
      by_cases hep : v.epoch = s.epoch_info.epoch
      · rcases hvv : w.voteVerify s.epoch_info.verifier v with er | u <;>
          simp [check_epoch, check_for_non_current_epoch, hep, hvv]
      · simp [check_epoch, check_for_non_current_epoch, hep,
          process_different_epoch_fst]
  | sync si =>
      by_cases hep : si.epoch = s.epoch_info.epoch <;>
        simp [check_epoch, check_for_non_current_epoch, EpochManager.epoch,
          hep, process_different_epoch_fst]
  | epochChange pr =>
      rcases hpe : w.proofEpoch pr with _ | e0
      · simp [check_epoch, check_for_non_current_epoch, hpe]
      · by_cases h0 : e0 = s.epoch_info.epoch
        · rcases hver : w.proofVerify s.epoch_info pr with er | li
          · simp [check_epoch, check_for_non_current_epoch, EpochManager.epoch,
              hpe, h0, hver]
          · by_cases hle : s.epoch_info.epoch ≤ li.epoch
            · exfalso
              rcases hev : (start_new_epoch w s li).1 with _ | ep
              · exact hft (by
                  simp [check_epoch, check_for_non_current_epoch,
                    EpochManager.epoch, hpe, h0, hver, hle, hev])
              · simp [check_epoch, check_for_non_current_epoch,
                  EpochManager.epoch, hpe, h0, hver, hle, hev,
                  CheckResult.isNewStart] at hns
            · simp [check_epoch, check_for_non_current_epoch,
                EpochManager.epoch, hpe, h0, hver, hle]
        · simp [check_epoch, check_for_non_current_epoch, EpochManager.epoch,
            hpe, h0, process_different_epoch_fst]
  | requestEpoch request =>
      by_cases hle : request.end_epoch ≤ s.epoch_info.epoch <;>
        simp [check_epoch, check_for_non_current_epoch, EpochManager.epoch,
          hle, process_epoch_retrieval_fst]

/-- C10 witness: a same-epoch vote admission leaves the state unchanged. -/
theorem check_epoch_state_frame_witness :
    (check_epoch wDef s5 1
        (FromNetworkMsg.vote { epoch := 5, payload := 1 })).2.1 = s5 :=
  check_epoch_state_frame wDef s5 1
    (FromNetworkMsg.vote { epoch := 5, payload := 1 }) (by decide) (by decide)

/-- Helper: help toward a lagging peer is a single EpochChange send when
the proof fetch and the network send succeed. -/
theorem process_different_epoch_snd_low (w : World) (s : EpochManager)
    (e : Nat) (peer_id : AccountAddress) (pr : EpochChangeProof)
    (hlt : e < s.epoch_info.epoch)
    (hp : w.getEpochProof e s.epoch_info.epoch = Except.ok pr)
    (hsend : w.sendOk peer_id = true) :
    (process_different_epoch w s e peer_id).2 =
      [Effect.sentTo peer_id (ConsensusMsgOut.epochChange pr)] := by
  simp [process_different_epoch, process_epoch_retrieval, sendToPeer,
    EpochManager.epoch, hlt, hp, hsend]

/-- Helper: help toward a leading peer is a single RequestEpoch send when
serialization and the network send succeed. -/
theorem process_different_epoch_snd_high (w : World) (s : EpochManager)
    (e : Nat) (peer_id : AccountAddress)
    (hgt : s.epoch_info.epoch < e)
    (hser : w.serializeOk { start_epoch := s.epoch_info.epoch, end_epoch := e }
      = true)
    (hsend : w.sendOk peer_id = true) :
    (process_different_epoch w s e peer_id).2 =
      [Effect.sentTo peer_id (ConsensusMsgOut.requestEpoch
        { start_epoch := s.epoch_info.epoch, end_epoch := e })] := by
  simp [process_different_epoch, sendToPeer, EpochManager.epoch,
    Nat.not_lt_of_lt hgt, hgt, hser, hsend]

/-- C5: a Vote or SyncInfo whose epoch `e` differs from the local epoch is
not forwarded (`check_epoch` returns NotCurrent) and triggers exactly one
cross-epoch help action toward the sender: with `e` lower, one EpochChange
message carrying the proof fetched for the span from `e` to the local epoch;
with `e` higher, one RequestEpoch message with start the local epoch and end
`e`. -/
theorem cross_epoch_help_exactly_one (w : World) (s : EpochManager)
    (peer_id : AccountAddress) (e : Nat) (msg : FromNetworkMsg)
    (v : VoteMsg) (si : SyncInfo)
    (hm : (msg = FromNetworkMsg.vote v ∧ v.epoch = e) ∨
          (msg = FromNetworkMsg.sync si ∧ si.epoch = e))
    (hne : e ≠ s.epoch_info.epoch)
    (hsend : w.sendOk peer_id = true) :
    (check_epoch w s peer_id msg).1 = CheckResult.ok EpochCheck.notCurrent ∧
    (∀ pr, e < s.epoch_info.epoch →
      w.getEpochProof e s.epoch_info.epoch = Except.ok pr →
      sentMsgs (check_epoch w s peer_id msg).2.2 =
        [(peer_id, ConsensusMsgOut.epochChange pr)]) ∧
    (s.epoch_info.epoch < e →
      w.serializeOk { start_epoch := s.epoch_info.epoch, end_epoch := e }
        = true →
      sentMsgs (check_epoch w s peer_id msg).2.2 =
        [(peer_id, ConsensusMsgOut.requestEpoch
          { start_epoch := s.epoch_info.epoch, end_epoch := e })]) := by
  have key : (check_epoch w s peer_id msg).1 =
        CheckResult.ok EpochCheck.notCurrent ∧
      (check_epoch w s peer_id msg).2.2 =
        (process_different_epoch w s e peer_id).2 := by
    rcases hm with ⟨hv, he⟩ | ⟨hs, he⟩
    · subst hv; subst he
      simp [check_epoch, check_for_non_current_epoch, hne]
    · subst hs; subst he
      simp [check_epoch, check_for_non_current_epoch, EpochManager.epoch, hne]
  refine ⟨key.1, ?_, ?_⟩
  · intro pr hlt hp
    rw [key.2, process_different_epoch_snd_low w s e peer_id pr hlt hp hsend]
    simp [sentMsgs]
  · intro hgt hser
    rw [key.2, process_different_epoch_snd_high w s e peer_id hgt hser hsend]
    simp [sentMsgs]

/-- C5 witness: local epoch 5, a vote at epoch 4 from peer 1 yields exactly
one EpochChange send to peer 1 carrying the fetched proof. -/
theorem cross_epoch_help_exactly_one_witness :
    sentMsgs (check_epoch wDef s5 1
        (FromNetworkMsg.vote { epoch := 4, payload := 0 })).2.2 =
      [(1, ConsensusMsgOut.epochChange { payload := 504 })] :=
  (cross_epoch_help_exactly_one wDef s5 1 4
      (FromNetworkMsg.vote { epoch := 4, payload := 0 })
      { epoch := 4, payload := 0 } { epoch := 0, payload := 0 }
      (Or.inl ⟨rfl, rfl⟩) (by decide) rfl).2.1 { payload := 504 } (by decide) rfl

/-- C1: under the storage contract that the recovered epoch lies strictly
beyond any ledger info the proof verifies to (recovery reflects the committed
epoch change), the local epoch is monotonically non-decreasing across
`check_epoch`, and whenever the call returns NewStart the local epoch after
the call strictly exceeds the local epoch before it. -/
theorem epoch_monotone_and_strict_on_newstart (w : World) (s : EpochManager)
    (peer_id : AccountAddress) (msg : FromNetworkMsg)
    (hstore : ∀ pr li, msg = FromNetworkMsg.epochChange pr →
      w.proofVerify s.epoch_info pr = Except.ok li →
      li.epoch < w.storageStart.epoch) :
    s.epoch_info.epoch ≤ (check_epoch w s peer_id msg).2.1.epoch_info.epoch ∧
    ((check_epoch w s peer_id msg).1.isNewStart = true →
      s.epoch_info.epoch <
        (check_epoch w s peer_id msg).2.1.epoch_info.epoch) := by
  cases msg with
  | proposal p =>
      by_cases hep : p.epoch = s.epoch_info.epoch
      · rcases hsig : w.sigVerify s.epoch_info.verifier p with er | u <;>
          rcases hwf : w.wellFormed p with er2 | u2 <;>
          by_cases hau : p.author = some peer_id <;>
          simp [check_epoch, check_for_non_current_epoch, hep, hsig, hwf, hau,
            CheckResult.isNewStart]
      · simp [check_epoch, check_for_non_current_epoch, hep,
          CheckResult.isNewStart]
  | requestBlock req =>
      simp [check_epoch, check_for_non_current_epoch, CheckResult.isNewStart]
  | vote v =>
      by_cases hep : v.epoch = s.epoch_info.epoch
      · rcases hvv : w.voteVerify s.epoch_info.verifier v with er | u <;>
          simp [check_epoch, check_for_non_current_epoch, hep, hvv,
            CheckResult.isNewStart]
      · simp [check_epoch, check_for_non_current_epoch, hep,
          process_different_epoch_fst, CheckResult.isNewStart]
  | sync si =>
      by_cases hep : si.epoch = s.epoch_info.epoch <;>
        simp [check_epoch, check_for_non_current_epoch, EpochManager.epoch,
          hep, process_different_epoch_fst, CheckResult.isNewStart]
  | epochChange pr =>
      rcases hpe : w.proofEpoch pr with _ | e0
      · simp [check_epoch, check_for_non_current_epoch, hpe,
          CheckResult.isNewStart]
      · by_cases h0 : e0 = s.epoch_info.epoch
        · rcases hver : w.proofVerify s.epoch_info pr with er | li
          · simp [check_epoch, check_for_non_current_epoch,
              EpochManager.epoch, hpe, h0, hver, CheckResult.isNewStart]
          · by_cases hle : s.epoch_info.epoch ≤ li.epoch
            · have hlt : li.epoch < w.storageStart.epoch :=
                hstore pr li rfl hver
              rcases helig : w.eligibleOk <;> rcases hsafe : w.safetyOk <;>
                simp [check_epoch, check_for_non_current_epoch,
                  EpochManager.epoch, hpe, h0, hver, hle, helig, hsafe,
                  start_new_epoch, start_epoch, CheckResult.isNewStart] <;>
                omega
            · simp [check_epoch, check_for_non_current_epoch,
                EpochManager.epoch, hpe, h0, hver, hle, CheckResult.isNewStart]
        · simp [check_epoch, check_for_non_current_epoch, EpochManager.epoch,
            hpe, h0, process_different_epoch_fst, CheckResult.isNewStart]
  | requestEpoch request =>
      by_cases hle : request.end_epoch ≤ s.epoch_info.epoch <;>
        simp [check_epoch, check_for_non_current_epoch, EpochManager.epoch,
          hle, process_epoch_retrieval_fst, CheckResult.isNewStart]

/-- C1 witness: a verified epoch change at local epoch 5 with storage
recovering epoch 6 returns NewStart and strictly raises the local epoch. -/
theorem epoch_monotone_and_strict_on_newstart_witness :
    (check_epoch wDef s5 1
        (FromNetworkMsg.epochChange { payload := 0 })).1.isNewStart = true ∧
    s5.epoch_info.epoch <
      (check_epoch wDef s5 1
        (FromNetworkMsg.epochChange { payload := 0 })).2.1.epoch_info.epoch :=
  ⟨by decide,
   (epoch_monotone_and_strict_on_newstart wDef s5 1
      (FromNetworkMsg.epochChange { payload := 0 })
      (by intro pr li _ hv; injection hv with h; rw [← h]; decide)).2
    (by decide)⟩

/-- C3: for an EpochChange proof that verifies under the current trusted
verifier (with its extracted epoch within the span the proof covers, and
storage recovering strictly past the verified target), submitting it to
`check_epoch` twice in succession yields NotCurrent on the second
submission, hence at most one NewStart. -/
theorem epoch_change_replay_second_not_current (w : World) (s : EpochManager)
    (peer_id : AccountAddress) (pr : EpochChangeProof)
    (li : LedgerInfoWithSignatures)
    (hv : w.proofVerify s.epoch_info pr = Except.ok li)
    (hspan : ∀ e, w.proofEpoch pr = some e → e ≤ li.epoch)
    (hstore : li.epoch < w.storageStart.epoch)
    (helig : w.eligibleOk = true) (hsafe : w.safetyOk = true) :
    (check_epoch w
        (check_epoch w s peer_id (FromNetworkMsg.epochChange pr)).2.1 peer_id
        (FromNetworkMsg.epochChange pr)).1 =
      CheckResult.ok EpochCheck.notCurrent ∧
    ¬((check_epoch w s peer_id
          (FromNetworkMsg.epochChange pr)).1.isNewStart = true ∧
      (check_epoch w
          (check_epoch w s peer_id (FromNetworkMsg.epochChange pr)).2.1 peer_id
          (FromNetworkMsg.epochChange pr)).1.isNewStart = true) := by
  have hsecond : (check_epoch w
      (check_epoch w s peer_id (FromNetworkMsg.epochChange pr)).2.1 peer_id
      (FromNetworkMsg.epochChange pr)).1 =
      CheckResult.ok EpochCheck.notCurrent := by
    rcases hpe : w.proofEpoch pr with _ | e0
    · have h1 : (check_epoch w s peer_id
          (FromNetworkMsg.epochChange pr)).2.1 = s := by
        simp [check_epoch, check_for_non_current_epoch, hpe]
      rw [h1]
      simp [check_epoch, check_for_non_current_epoch, hpe]
    · by_cases h0 : e0 = s.epoch_info.epoch
      · have hle : s.epoch_info.epoch ≤ li.epoch := h0 ▸ hspan e0 hpe
        have h1 : (check_epoch w s peer_id
            (FromNetworkMsg.epochChange pr)).2.1 =
            ⟨⟨w.storageStart.epoch, w.storageStart.validators⟩⟩ := by
          simp [check_epoch, check_for_non_current_epoch, EpochManager.epoch,
            hpe, h0, hv, hle, start_new_epoch, start_epoch, helig, hsafe]
        rw [h1]
        have hne2 : e0 ≠ w.storageStart.epoch := by omega
        simp [check_epoch, check_for_non_current_epoch, EpochManager.epoch,
          hpe, hne2]
      · have h1 : (check_epoch w s peer_id
            (FromNetworkMsg.epochChange pr)).2.1 = s := by
          simp [check_epoch, check_for_non_current_epoch, EpochManager.epoch,
            hpe, h0, process_different_epoch_fst]
        rw [h1]
        simp [check_epoch, check_for_non_current_epoch, EpochManager.epoch,
          hpe, h0, process_different_epoch_fst]
  refine ⟨hsecond, ?_⟩
  rintro ⟨-, h2⟩
  rw [hsecond] at h2
  simp [CheckResult.isNewStart] at h2

/-- C3 witness: replaying the verified proof after the transition to epoch 6
returns NotCurrent. -/
theorem epoch_change_replay_second_not_current_witness :
    (check_epoch wDef
        (check_epoch wDef s5 1
          (FromNetworkMsg.epochChange { payload := 0 })).2.1 1
        (FromNetworkMsg.epochChange { payload := 0 })).1 =
      CheckResult.ok EpochCheck.notCurrent :=
  (epoch_change_replay_second_not_current wDef s5 1 { payload := 0 }
      { epoch := 5, payload := 0 } rfl
      (by intro e he; injection he with h; rw [← h])
      (by decide) rfl rfl).1
